import Mathlib

/-!
Shallow embedding of the learner-profile engine of the
A-Visual-Centric-AI-Platform repository, together with proofs about its
knowledge tracker, skill-level update, query classification, history caps,
profile migration, recommendation generation and file-store sanitization.
Real numbers of the Python source are modelled as exact rationals; external
collaborators (the LLM chain, the topic extractor) are modelled as explicit
parameters or outcome values.
-/

namespace AdvAgent

/-- A per-topic knowledge area as built by
`AdvancedPersonalizationAgent.track_learning_progress`
(keys `proficiency`, `interactions`, `last_practiced`). -/
structure KnowledgeArea where
  proficiency : ℚ
  interactions : Nat
  last_practiced : String
deriving Repr, DecidableEq

/-- One `interaction_data` dict: `get('topic', '')` is modelled by a plain
string (empty string = missing) and `get('success_rate', 0.5)` by an
optional rational. -/
structure Interaction where
  topic : String
  success_rate : Option ℚ
deriving Repr, DecidableEq

/-- The slice of the advanced profile that `track_learning_progress`
reads and writes: `knowledge_areas`, `learning_history` and
`skill_progression['learning_velocity']`. -/
structure AdvProfile where
  knowledge_areas : String → Option KnowledgeArea
  learning_history : List Interaction
  learning_velocity : ℚ

/-- Default advanced profile (`get_advanced_user_profile`):
no knowledge areas, empty history, `learning_velocity = 0.5`. -/
def advDefault : AdvProfile :=
  { knowledge_areas := fun _ => none
    learning_history := []
    learning_velocity := 1/2 }

/-- The fixed constant `learning_rate = 0.1` of `track_learning_progress`. -/
def learning_rate : ℚ := 1/10

/-- Mean of `get('success_rate', 0.5)` over the last 10 entries of a
learning history, as computed by the velocity block of
`track_learning_progress` (`learning_history[-10:]`). -/
def windowMean (hist : List Interaction) : ℚ :=
  let recent := hist.drop (hist.length - 10)
  ((recent.map (fun i => i.success_rate.getD (1/2))).sum) / recent.length

/-- Embedding of `AdvancedPersonalizationAgent.track_learning_progress`:
append the interaction to `learning_history`; for a non-empty topic create
the area with proficiency 0.1 when unseen, then increment `interactions`,
stamp `last_practiced`, and set
`proficiency = min(1.0, proficiency + success_rate * learning_rate)`;
finally set `learning_velocity` to the mean of the last 10 history entries
when at least 5 of them exist. `now` stands for `datetime.now()`. -/
def track_learning_progress (now : String) (p : AdvProfile) (d : Interaction) :
    AdvProfile :=
  let hist := p.learning_history ++ [d]
  let success_rate := d.success_rate.getD (1/2)
  let areas :=
    if d.topic ≠ "" then
      let area0 := (p.knowledge_areas d.topic).getD
        { proficiency := 1/10, interactions := 0, last_practiced := now }
      let area1 : KnowledgeArea :=
        { proficiency := min 1 (area0.proficiency + success_rate * learning_rate)
          interactions := area0.interactions + 1
          last_practiced := now }
      fun t => if t = d.topic then some area1 else p.knowledge_areas t
    else p.knowledge_areas
  let recent := hist.drop (hist.length - 10)
  let velocity :=
    if 5 ≤ recent.length then
      ((recent.map (fun i => i.success_rate.getD (1/2))).sum) / recent.length
    else p.learning_velocity
  { knowledge_areas := areas
    learning_history := hist
    learning_velocity := velocity }

/-- Run a sequence of `track_learning_progress` calls
(first component of each pair plays the role of the wall clock). -/
def runTrack (p : AdvProfile) (ds : List (String × Interaction)) : AdvProfile :=
  ds.foldl (fun q nd => track_learning_progress nd.1 q nd.2) p

/-- All knowledge-area proficiencies of a profile lie in [0, 1]. -/
def ProfInRange (p : AdvProfile) : Prop :=
  ∀ t a, p.knowledge_areas t = some a → 0 ≤ a.proficiency ∧ a.proficiency ≤ 1

/-- All recorded success rates of a call sequence lie in [0, 1]. -/
def RatesInRange (ds : List (String × Interaction)) : Prop :=
  ∀ nd ∈ ds, ∀ s, nd.2.success_rate = some s → 0 ≤ s ∧ s ≤ 1

end AdvAgent

namespace Py

/-- Lowercase a string character-wise, modelling Python `str.lower()`
(ASCII range, which covers every string the agents compare). -/
def pyLower (s : String) : String := ⟨s.data.map Char.toLower⟩

/-- Substring occurrence on character lists (helper for `containsSub`). -/
def subOccurs (needle : List Char) : List Char → Bool
  | [] => needle.isEmpty
  | c :: rest => needle.isPrefixOf (c :: rest) || subOccurs needle rest

/-- Python `needle in hay` on strings (substring containment). -/
def containsSub (needle hay : String) : Bool := subOccurs needle.data hay.data

/-- Helper for `pySplit`: accumulate maximal runs of non-whitespace. -/
def splitWSAux : List Char → List Char → List (List Char)
  | [], acc => if acc.isEmpty then [] else [acc.reverse]
  | c :: rest, acc =>
    if c.isWhitespace then
      if acc.isEmpty then splitWSAux rest []
      else acc.reverse :: splitWSAux rest []
    else splitWSAux rest (c :: acc)

/-- Python `str.split()` with no separator: split on whitespace runs and
drop empty fields. -/
def pySplit (s : String) : List String := (splitWSAux s.data []).map (fun l => ⟨l⟩)

/-- Python `str.rstrip(c)` for a single strip character. -/
def rstripChar (c : Char) (s : String) : String :=
  ⟨(s.data.reverse.dropWhile (fun d => d == c)).reverse⟩

end Py

namespace AgentV1

open Py

/-- The JSON object exchanged with the LLM chain and returned by
`PersonalizationAgent.process_query` (personalization_agent.py); absent
keys are `none`. -/
structure LLMResponse where
  query_type : Option String
  response : Option String
  level : Option String
  learning_style : Option (List String)
  emphasis : Option (List String)
  knowledge_gaps : Option (List String)
  connections : Option (List String)
  tailored_instruction : Option String
  tailored_query : Option String
  personalized_greeting : Option String
deriving Repr, DecidableEq

/-- The response object with no keys set. -/
def LLMResponse.noKeys : LLMResponse :=
  ⟨none, none, none, none, none, none, none, none, none, none⟩

/-- A `session_history` entry as appended by
`_update_profile_from_interaction` (personalization_agent.py). -/
structure SessionEntry where
  timestamp : String
  query : String
  query_type : String
  inferred_level : Option String
  inferred_learning_styles : Option (List String)
  topic : Option String
deriving Repr, DecidableEq

/-- A `feedback` entry as appended by `provide_feedback`. -/
structure FeedbackEntry where
  timestamp : String
  query : String
  was_helpful : Bool
  feedback : Option String
deriving Repr, DecidableEq

/-- The slice of the personalization_agent.py user profile read and written
by `_update_profile_from_interaction`, `process_query` and
`provide_feedback`; `interaction_types` and `feedback` are optional because
the code guards them with `not in` checks. -/
structure Profile where
  name : Option String
  skill_level : String
  preferred_learning_styles : List String
  interactions_count : Nat
  interaction_types : Option (List (String × Nat))
  session_history : List SessionEntry
  feedback : Option (List FeedbackEntry)
deriving Repr, DecidableEq

/-- Embedding of `_get_default_profile` (the fields of the model). -/
def get_default_profile (user_id : String) : Profile :=
  { name := some (if user_id.contains '@'
      then (user_id.splitOn "@").headD user_id else "User")
    skill_level := "beginner"
    preferred_learning_styles := ["visual", "textual"]
    interactions_count := 0
    interaction_types := some [("educational", 0), ("greeting", 0), ("non_educational", 0)]
    session_history := []
    feedback := some [] }

/-- The greeting phrase list of `_is_greeting_or_casual`. -/
def greetings : List String :=
  ["hi", "hello", "hey", "howdy", "greetings",
   "how are you", "what\x27s up", "good morning", "good afternoon",
   "good evening", "good day", "nice to meet you"]

/-- Embedding of `_is_greeting_or_casual`: any greeting phrase occurring as
a SUBSTRING of the lowercased query. -/
def is_greeting_or_casual (query : String) : Bool :=
  greetings.any (fun g => containsSub g (pyLower query))

/-- The keyword list of `_is_profile_or_memory_query`. -/
def memory_keywords : List String :=
  ["memory", "remember", "know about me", "tell me about myself",
   "what do you know", "profile", "information about me",
   "who am i", "about me", "my information", "what\x27s in your memory",
   "do you remember me", "what do you remember", "my details", "my data",
   "my goals", "what are my goals", "my learning goals", "my objectives",
   "my skills", "what are my skills", "my interests", "my preferences",
   "my background", "my experience", "my education", "my job", "my work"]

/-- Embedding of `_is_profile_or_memory_query`. -/
def is_profile_or_memory_query (query : String) : Bool :=
  memory_keywords.any (fun k => containsSub k (pyLower query))

/-- The keyword list of `_is_non_educational`. -/
def non_educational_keywords : List String :=
  ["who are you", "what are you", "your name", "tell me about yourself",
   "how do you work", "what can you do", "your capabilities", "help me",
   "weather", "news", "time", "date", "joke", "thanks", "thank you"]

/-- Embedding of `_is_non_educational`: a system keyword occurs and the
query is not a profile/memory query. -/
def is_non_educational (query : String) : Bool :=
  non_educational_keywords.any (fun k => containsSub k (pyLower query))
    && !(is_profile_or_memory_query query)

/-- The `common_topics` list of `_infer_topic`. -/
def common_topics : List String :=
  ["algorithms", "data structures", "programming", "mathematics",
   "physics", "chemistry", "biology", "machine learning"]

/-- Embedding of `_infer_topic`: first common topic occurring in the
lowercased query, else "general". -/
def infer_topic (query : String) : String :=
  (common_topics.find? (fun t => containsSub (pyLower t) (pyLower query))).getD
    "general"

/-- The `topic_map` of `_extract_topic_from_query`, in source order. -/
def topic_map : List (String × String) :=
  [("machine learning", "machine learning"),
   ("artificial intelligence", "artificial intelligence"),
   ("ai", "AI"),
   ("python", "Python programming"),
   ("javascript", "JavaScript"),
   ("programming", "programming"),
   ("data science", "data science"),
   ("algorithms", "algorithms"),
   ("data structures", "data structures"),
   ("neural networks", "neural networks"),
   ("deep learning", "deep learning"),
   ("web development", "web development"),
   ("database", "databases"),
   ("sql", "SQL"),
   ("cloud computing", "cloud computing"),
   ("cybersecurity", "cybersecurity"),
   ("blockchain", "blockchain"),
   ("quantum", "quantum computing"),
   ("nlp", "natural language processing"),
   ("natural language processing", "natural language processing")]

/-- The question-word list of the cleanup loop of
`_extract_topic_from_query`. -/
def remove_words : List String :=
  ["what", "how", "why", "when", "where", "is", "are", "can", "you",
   "tell", "me", "about", "explain", "to", "the", "a", "an"]

/-- Embedding of `_extract_topic_from_query`: topic-map lookup, then the
"what is" / "explain" / "how does" / "tell me about" extraction patterns,
then the question-word cleanup, finally "this topic". -/
def extract_topic_from_query (query : String) : String :=
  let ql := pyLower query
  let fromMap : Option String :=
    (topic_map.find? (fun kv => containsSub kv.1 ql)).map (fun kv => kv.2)
  let fromWhatIs : Option String :=
    if containsSub "what is" ql then
      let parts := ql.splitOn "what is"
      if 1 < parts.length then
        let topic := rstripChar '?' ((parts.getD 1 "").trim)
        if topic ≠ "" then some topic else none
      else none
    else none
  let fromExplain : Option String :=
    if containsSub "explain" ql then
      let parts := ql.splitOn "explain"
      if 1 < parts.length then
        let topic0 := rstripChar '?' ((parts.getD 1 "").trim)
        let topic := (((topic0.replace "to me" "").replace "how" "")).trim
        if topic ≠ "" then some topic else none
      else none
    else none
  let fromHowDoes : Option String :=
    if containsSub "how does" ql || containsSub "how do" ql then
      if containsSub "how does" ql then
        let parts := ql.splitOn "how does"
        if 1 < parts.length then
          let topic := rstripChar '?' (((parts.getD 1 "").replace "work" "").trim)
          if topic ≠ "" then some topic else none
        else none
      else none
    else none
  let fromTellMe : Option String :=
    if containsSub "tell me about" ql then
      let parts := ql.splitOn "tell me about"
      if 1 < parts.length then
        let topic := rstripChar '?' ((parts.getD 1 "").trim)
        if topic ≠ "" then some topic else none
      else none
    else none
  let cleaned0 := remove_words.foldl
    (fun acc w => acc.replace (" " ++ w ++ " ") " ") ql
  let cleaned := rstripChar '?' cleaned0.trim
  let fromClean : Option String :=
    if 0 < cleaned.length ∧ cleaned.length < 50 then some cleaned else none
  (fromMap <|> fromWhatIs <|> fromExplain <|> fromHowDoes <|> fromTellMe
    <|> fromClean).getD "this topic"

/-- Increment a query-type counter inside `interaction_types`, inserting it
at 0 first when missing (as the two `not in` guards do). -/
def bumpType (m : List (String × Nat)) (qt : String) : List (String × Nat) :=
  match m.find? (fun kv => kv.1 == qt) with
  | some _ => m.map (fun kv => if kv.1 == qt then (kv.1, kv.2 + 1) else kv)
  | none => m ++ [(qt, 1)]

/-- The skill-level block of `_update_profile_from_interaction`
(lines 406-414): thresholds on the post-increment interaction count
combined with the level reported by the LLM response. -/
def updateSkillLevel (count : Nat) (skill : String) (lvl : Option String) :
    String :=
  if 50 < count then
    if lvl = some "advanced" then "advanced"
    else if lvl = some "intermediate" ∧ skill = "beginner" then "intermediate"
    else skill
  else if 20 < count then
    if lvl = some "intermediate" ∧ skill = "beginner" then "intermediate"
    else skill
  else skill

/-- Append each new learning style not already present (the
`for style in response["learning_style"]` loop). -/
def appendNewStyles (cur : List String) (new : List String) : List String :=
  new.foldl (fun acc s => if s ∈ acc then acc else acc ++ [s]) cur

/-- Embedding of `_update_profile_from_interaction`
(personalization_agent.py): increment the count, build the session entry
(with extra fields for educational queries), merge reported learning
styles, run the skill-level block, bump greeting/non-educational type
counters, and append the entry to `session_history` (no cap). -/
def update_profile_from_interaction (now : String) (p : Profile)
    (query : String) (response : LLMResponse) : Profile :=
  let count := p.interactions_count + 1
  let query_type := response.query_type.getD "educational"
  let base : SessionEntry :=
    { timestamp := now, query := query, query_type := query_type
      inferred_level := none, inferred_learning_styles := none, topic := none }
  let entry :=
    if query_type = "educational" then
      { base with inferred_level := some (response.level.getD "beginner")
                  inferred_learning_styles := some (response.learning_style.getD [])
                  topic := some (infer_topic query) }
    else base
  let styles :=
    if query_type = "educational" then
      match response.learning_style with
      | some ls =>
        if ls ≠ [] then appendNewStyles p.preferred_learning_styles ls
        else p.preferred_learning_styles
      | none => p.preferred_learning_styles
    else p.preferred_learning_styles
  let skill :=
    if query_type = "educational" then
      updateSkillLevel count p.skill_level response.level
    else p.skill_level
  let itypes :=
    if query_type = "greeting" ∨ query_type = "non_educational" then
      some (bumpType (p.interaction_types.getD []) query_type)
    else p.interaction_types
  { p with interactions_count := count
           preferred_learning_styles := styles
           skill_level := skill
           interaction_types := itypes
           session_history := p.session_history ++ [entry] }

/-- The canned greeting response of the fast path and the fallbacks. -/
def greeting_response : LLMResponse :=
  { LLMResponse.noKeys with
      query_type := some "greeting"
      response := some "Hello! How can I help you learn today?" }

/-- The canned non-educational fallback response. -/
def non_educational_response : LLMResponse :=
  { LLMResponse.noKeys with
      query_type := some "non_educational"
      response := some "I\x27m an AI educational assistant designed to help with your learning journey." }

/-- The educational fallback built in the `json.JSONDecodeError` handler:
level and learning styles from the profile (with a default when the
style list is empty), interaction-count-dependent greeting, tailored
query equal to the original query. -/
def json_fallback_educational (p : Profile) (query : String) : LLMResponse :=
  let display_name := p.name.getD "there"
  let topic := extract_topic_from_query query
  let interaction_count := p.interactions_count
  let greeting :=
    if interaction_count = 0 then
      "Hi " ++ display_name ++ "! Let\x27s explore " ++ topic
        ++ " together - this is going to be interesting!"
    else if interaction_count < 5 then
      "Great question, " ++ display_name ++ "! I love that you\x27re curious about "
        ++ topic ++ "."
    else
      "Welcome back, " ++ display_name ++ "! Ready to dive into " ++ topic ++ "?"
  { query_type := some "educational"
    response := none
    level := some p.skill_level
    learning_style := some (if p.preferred_learning_styles ≠ []
      then p.preferred_learning_styles else ["visual", "textual"])
    emphasis := some ["core concepts"]
    knowledge_gaps := some []
    connections := some []
    tailored_instruction := some ("Explain the concept of " ++ topic
      ++ " clearly at a " ++ p.skill_level ++ " level.")
    tailored_query := some query
    personalized_greeting := some greeting }

/-- The basic educational response built in the outer `except` handler:
hardcoded "beginner" level and default styles. -/
def except_fallback_educational (p : Profile) (query : String) : LLMResponse :=
  let user_name := p.name.getD "there"
  { query_type := some "educational"
    response := none
    level := some "beginner"
    learning_style := some ["visual", "textual"]
    emphasis := some ["core concepts"]
    knowledge_gaps := some []
    connections := some []
    tailored_instruction := some ("Explain the concept of " ++ query
      ++ " in a clear, straightforward manner.")
    tailored_query := some query
    personalized_greeting := some ("Hi " ++ user_name ++ "! Let\x27s explore "
      ++ query ++ " together!") }

/-- The `json.JSONDecodeError` handler of `process_query`: greeting,
non-educational, else educational fallback. -/
def json_decode_fallback (p : Profile) (query : String) : LLMResponse :=
  if is_greeting_or_casual query then greeting_response
  else if is_non_educational query then non_educational_response
  else json_fallback_educational p query

/-- The outer `except Exception` handler of `process_query`. -/
def outer_except_fallback (p : Profile) (query : String) : LLMResponse :=
  if is_greeting_or_casual query then greeting_response
  else if is_non_educational query then non_educational_response
  else except_fallback_educational p query

/-- Outcome of parsing the LLM chain's text: no JSON object found
(`ValueError`, caught only by the outer handler), a `json.JSONDecodeError`,
or a parsed response object. -/
inductive ParsedOutcome where
  | noJson
  | decodeError
  | parsed (d : LLMResponse)
deriving Repr, DecidableEq

/-- Outcome of the `chain.run` call: an exception, or a returned text
summarized by how it parses. -/
inductive ChainOutcome where
  | raised
  | ok (r : ParsedOutcome)
deriving Repr, DecidableEq

/-- Embedding of `PersonalizationAgent.process_query`
(personalization_agent.py): fast greeting path for queries of at most 3
words matching `_is_greeting_or_casual`; otherwise the chain outcome is
parsed, a parsed dict updates the profile and is returned, a decode error
triggers the JSON fallback, and a raised exception or absent JSON object
reaches the outer handler. Returns the updated profile and the response. -/
def process_query (now : String) (p : Profile) (query : String)
    (chain : ChainOutcome) : Profile × LLMResponse :=
  if (pySplit query).length ≤ 3 ∧ is_greeting_or_casual query then
    (update_profile_from_interaction now p query greeting_response,
      greeting_response)
  else
    match chain with
    | .raised => (p, outer_except_fallback p query)
    | .ok .noJson => (p, outer_except_fallback p query)
    | .ok .decodeError => (p, json_decode_fallback p query)
    | .ok (.parsed d) =>
      (update_profile_from_interaction now p query d, d)

/-- Embedding of `provide_feedback` (personalization_agent.py): append the
feedback entry with no cap. -/
def provide_feedback (now : String) (p : Profile) (query : String)
    (was_helpful : Bool) (fb : Option String) : Profile :=
  let log := p.feedback.getD []
  { p with feedback := some (log ++
      [{ timestamp := now, query := query, was_helpful := was_helpful,
         feedback := fb }]) }

end AgentV1

namespace AgentV2

open Py

/-- A per-topic knowledge area as kept by the package agent
(personalization/agent.py): `interactions`, `last_interaction`,
`estimated_skill`. -/
structure KnowledgeArea where
  interactions : Nat
  last_interaction : String
  estimated_skill : String
deriving Repr, DecidableEq

/-- A `session_history` entry of the package agent: timestamp, query,
query type and (for educational queries) the inferred topic. -/
structure SessionEntry where
  timestamp : String
  query : String
  query_type : String
  topic : Option String
deriving Repr, DecidableEq

/-- A `feedback` entry as appended by `provide_feedback`
(personalization/agent.py). -/
structure FeedbackEntry where
  timestamp : String
  query : String
  was_helpful : Bool
  feedback_text : Option String
deriving Repr, DecidableEq

/-- The response dict of the package agent (only the keys its profile
update reads are modelled beyond the returned payload). -/
structure LLMResponse where
  query_type : Option String
  response : Option String
  level : Option String
  learning_style : Option (List String)
  tailored_instruction : Option String
  tailored_query : Option String
deriving Repr, DecidableEq

/-- The slice of the package agent's profile read and written by
`_update_profile_from_interaction` and `provide_feedback`; every field
exists in the new-profile schema, so none is optional. -/
structure Profile where
  interactions_count : Nat
  preferred_learning_styles : List String
  skill_level : String
  knowledge_areas : String → Option KnowledgeArea
  areas_for_improvement : List String
  session_history : List SessionEntry
  topic_interests : List String
  interaction_types : List (String × Nat)
  feedback : List FeedbackEntry

/-- The from-scratch profile of `_load_user_profile`
(personalization/agent.py). -/
def new_profile : Profile :=
  { interactions_count := 0
    preferred_learning_styles := ["visual", "textual"]
    skill_level := "beginner"
    knowledge_areas := fun _ => none
    areas_for_improvement := []
    session_history := []
    topic_interests := []
    interaction_types := [("greeting", 0), ("non_educational", 0), ("educational", 0)]
    feedback := [] }

/-- Embedding of `_infer_topic` (personalization/agent.py): keyword chain
over the lowercased query, defaulting to "general". -/
def infer_topic (query : String) : String :=
  let ql := pyLower query
  if containsSub "python" ql then "python"
  else if containsSub "javascript" ql || containsSub "js" ql then "javascript"
  else if containsSub "math" ql || containsSub "calculus" ql then "mathematics"
  else if containsSub "history" ql then "history"
  else if containsSub "physics" ql then "physics"
  else if containsSub "chemistry" ql then "chemistry"
  else if containsSub "biology" ql then "biology"
  else "general"

/-- Increment a query-type counter, inserting it at 1 when absent (the
`if query_type in ...` branch of the package agent). -/
def bumpType (m : List (String × Nat)) (qt : String) : List (String × Nat) :=
  match m.find? (fun kv => kv.1 == qt) with
  | some _ => m.map (fun kv => if kv.1 == qt then (kv.1, kv.2 + 1) else kv)
  | none => m ++ [(qt, 1)]

/-- The session entry built by `_update_profile_from_interaction`
(personalization/agent.py): base fields plus the inferred topic for
educational queries. -/
def sessionEntry (now query : String) (response : LLMResponse) : SessionEntry :=
  let query_type := response.query_type.getD "educational"
  { timestamp := now, query := query, query_type := query_type
    topic := if query_type = "educational" then some (infer_topic query) else none }

/-- Embedding of `_update_profile_from_interaction`
(personalization/agent.py): increment the count, bump the type counter,
update knowledge areas and topic interests for educational queries, and
append the session entry, truncating the history to its last 100 entries
when it exceeds 100. -/
def update_profile_from_interaction (now : String) (p : Profile)
    (query : String) (response : LLMResponse) : Profile :=
  let count := p.interactions_count + 1
  let query_type := response.query_type.getD "educational"
  let entry := sessionEntry now query response
  let itypes := bumpType p.interaction_types query_type
  let topic := infer_topic query
  let areas :=
    if query_type = "educational" then
      match p.knowledge_areas topic with
      | none => fun t => if t = topic then
          some { interactions := 1, last_interaction := now,
                 estimated_skill := "beginner" }
          else p.knowledge_areas t
      | some a => fun t => if t = topic then
          some { a with interactions := a.interactions + 1,
                        last_interaction := now }
          else p.knowledge_areas t
    else p.knowledge_areas
  let interests :=
    if query_type = "educational" ∧ topic ∉ p.topic_interests then
      p.topic_interests ++ [topic]
    else p.topic_interests
  let hist0 := p.session_history ++ [entry]
  let hist := if 100 < hist0.length then hist0.drop (hist0.length - 100) else hist0
  { p with interactions_count := count
           interaction_types := itypes
           knowledge_areas := areas
           topic_interests := interests
           session_history := hist }

/-- The feedback entry built by `provide_feedback`
(personalization/agent.py). -/
def feedbackEntry (now query : String) (was_helpful : Bool)
    (fb : Option String) : FeedbackEntry :=
  { timestamp := now, query := query, was_helpful := was_helpful,
    feedback_text := fb }

/-- Embedding of `provide_feedback` (personalization/agent.py): append the
entry, truncate the log to its last 100 entries when it exceeds 100, and
on unhelpful feedback reset the topic's estimated skill to "beginner" and
record the topic as an area for improvement. -/
def provide_feedback (now : String) (p : Profile) (query : String)
    (was_helpful : Bool) (fb : Option String) : Profile :=
  let log0 := p.feedback ++ [feedbackEntry now query was_helpful fb]
  let log := if 100 < log0.length then log0.drop (log0.length - 100) else log0
  if was_helpful then
    { p with feedback := log }
  else
    let topic := infer_topic query
    let areas :=
      match p.knowledge_areas topic with
      | some a =>
        if a.estimated_skill ≠ "beginner" then
          fun t => if t = topic then some { a with estimated_skill := "beginner" }
            else p.knowledge_areas t
        else p.knowledge_areas
      | none => p.knowledge_areas
    let improvements :=
      if topic ∉ p.areas_for_improvement then p.areas_for_improvement ++ [topic]
      else p.areas_for_improvement
    { p with feedback := log
             knowledge_areas := areas
             areas_for_improvement := improvements }

end AgentV2

namespace Migration

/-- JSON-like values of the stored profile dicts. -/
inductive JVal where
  | str (s : String)
  | num (q : ℚ)
  | bool (b : Bool)
  | list (l : List JVal)
  | obj (l : List (String × JVal))
deriving Repr

/-- The top-level key merge loop of
`AdvancedPersonalizationAgent.get_advanced_user_profile`
(`for key, value in default_profile.items(): if key not in existing_profile:
existing_profile[key] = value`), generic in the value type. -/
def merge_missing_keys {V : Type} (defaults : List (String × V))
    (stored : String → Option V) : String → Option V :=
  defaults.foldl
    (fun acc kv =>
      match acc kv.1 with
      | none => fun k => if k = kv.1 then some kv.2 else acc k
      | some _ => acc)
    stored

/-- Embedding of `EnhancedLearningAgent._create_enhanced_profile` as a
key-to-value map (`now` stands for `datetime.now().isoformat()`). -/
def create_enhanced_profile (now : String) : String → Option JVal := fun k =>
  match k with
  | "created_at" => some (.str now)
  | "updated_at" => some (.str now)
  | "interactions_count" => some (.num 0)
  | "skill_level" => some (.str "beginner")
  | "learning_style" => some (.list [.str "visual"])
  | "knowledge_areas" => some (.obj [])
  | "coding_patterns" => some (.obj
      [("preferred_languages", .list []), ("common_mistakes", .list []),
       ("improvement_areas", .list []), ("coding_style_preferences", .obj [])])
  | "learning_progress" => some (.obj [])
  | "session_history" => some (.list [])
  | "personalization_data" => some (.obj
      [("explanation_complexity_preference", .str "simple"),
       ("feedback_frequency", .str "moderate"),
       ("preferred_learning_path", .str "structured")])
  | "performance_metrics" => some (.obj
      [("code_understanding_score", .num 0),
       ("problem_solving_speed", .num 0),
       ("concept_retention", .num 0)])
  | "adaptive_recommendations" => some (.list [])
  | _ => none

/-- The whitelist of keys that `_migrate_profile_structure` copies over
from the old profile. -/
def migrate_keys : List String :=
  ["created_at", "interactions_count", "skill_level", "knowledge_areas",
   "session_history"]

/-- Embedding of `EnhancedLearningAgent._migrate_profile_structure`: start
from the fresh enhanced profile, copy only the whitelisted keys that exist
in the old profile, then stamp `updated_at`. -/
def migrate_profile_structure (now : String) (old : String → Option JVal) :
    String → Option JVal :=
  let base := create_enhanced_profile now
  let migrated := migrate_keys.foldl
    (fun acc key =>
      match old key with
      | some v => fun k => if k = key then some v else acc k
      | none => acc)
    base
  fun k => if k = "updated_at" then some (.str now) else migrated k

end Migration

namespace UserStore

/-- The allowed punctuation of the user-id sanitizer in
`UserContextManager._save_to_file` / `_load_from_file`
(`c in "._-@"`). -/
def allowed_punct : List Char := ['.', '_', '-', '@']

/-- Embedding of the sanitizer
`"".join(c if c.isalnum() or c in "._-@" else "_" for c in user_id)`;
Python's `str.isalnum` is passed in as a predicate. -/
def sanitize_user_id (alnum : Char → Bool) (user_id : String) : String :=
  ⟨user_id.data.map (fun c => if alnum c || c ∈ allowed_punct then c else '_')⟩

/-- The fallback file name `f"user_{safe_user_id}.json"` used by the file
store. -/
def fallback_file_name (alnum : Char → Bool) (user_id : String) : String :=
  "user_" ++ sanitize_user_id alnum user_id ++ ".json"

end UserStore

namespace UserCtx

open Py

/-- Python `str.title()` (ASCII): uppercase a character that follows a
non-letter, lowercase one that follows a letter. -/
def titleAux : List Char → Bool → List Char
  | [], _ => []
  | c :: rest, prevAlpha =>
    (if prevAlpha then c.toLower else c.toUpper) :: titleAux rest c.isAlpha

/-- Python `str.title()` on a string. -/
def pyTitle (s : String) : String := ⟨titleAux s.data false⟩

/-- The `preferences` object of a user context. -/
structure Preferences where
  learningStyle : String
  weakTopics : List String
  goals : List String
deriving Repr, DecidableEq

/-- The `sessionData` object of a user context. -/
structure SessionData where
  startTime : String
  interactionCount : Nat
  topics : List String
deriving Repr, DecidableEq

/-- The user context of user_context.py read by the recommendation
generators; `skillLevel` is optional because `_create_default_context`
does not set it (`context.get("skillLevel", "beginner")`). -/
structure Context where
  userId : String
  name : String
  createdAt : String
  lastUpdated : String
  preferences : Preferences
  lastActivity : Option String
  recentQuestions : List String
  sessionData : SessionData
  skillLevel : Option String
deriving Repr, DecidableEq

/-- Embedding of `UserContextManager._create_default_context`. -/
def create_default_context (user_id now : String) : Context :=
  { userId := user_id
    name := if user_id.contains '@'
      then (user_id.splitOn "@").headD user_id else user_id
    createdAt := now
    lastUpdated := now
    preferences := { learningStyle := "visual", weakTopics := []
                     goals := ["Master coding concepts"] }
    lastActivity := none
    recentQuestions := []
    sessionData := { startTime := now, interactionCount := 0, topics := [] }
    skillLevel := none }

/-- The `common_topics` fallback list of `_extract_topic_from_goal`. -/
def goal_common_topics : List String :=
  ["python", "javascript", "algorithms", "data structures",
   "database", "sql", "machine learning", "operating systems"]

/-- Embedding of `UserContext._extract_topic_from_goal`: with no Gemini
model, scan the fallback topic list for a substring of the lowercased
goal; with a model, the (external) model's cleaned answer is the result,
modelled by the function the model is. -/
def extract_topic_from_goal (gemini : Option (String → Option String))
    (goal : String) : Option String :=
  match gemini with
  | none => goal_common_topics.find? (fun t => containsSub t (pyLower goal))
  | some f => f goal

/-- A flashcard recommendation record. -/
structure Flashcard where
  id : String
  title : String
  description : String
  difficulty : String
  count : Nat
deriving Repr, DecidableEq

/-- A game recommendation record. -/
structure Game where
  id : String
  title : String
  description : String
  difficulty : String
  type : String
deriving Repr, DecidableEq

/-- A resource recommendation record. -/
structure Resource where
  id : String
  title : String
  description : String
  type : String
  format : String
deriving Repr, DecidableEq

/-- Embedding of `UserContext._get_flashcard_recommendations`: up to 2
weak-topic cards, then goal-derived cards up to a total of 3, then the
general fallback card when empty. `eg` is `_extract_topic_from_goal`. -/
def get_flashcard_recommendations (eg : String → Option String)
    (ctx : Context) : List Flashcard :=
  let weak_topics := ctx.preferences.weakTopics
  let fromWeak := (weak_topics.take 2).foldl
    (fun acc topic => acc ++
      [{ id := "flashcard_" ++ toString (acc.length + 1)
         title := pyTitle topic ++ " Flashcards"
         description := "Practice " ++ topic
           ++ " concepts to strengthen your understanding"
         difficulty := "medium", count := 10 }]) []
  let goals := ctx.preferences.goals
  let withGoals := goals.foldl
    (fun acc goal =>
      if 3 ≤ acc.length then acc
      else
        match eg goal with
        | some topic => acc ++
          [{ id := "flashcard_" ++ toString (acc.length + 1)
             title := pyTitle topic ++ " Flashcards"
             description := "Learn key " ++ topic
               ++ " concepts to help reach your goal"
             difficulty := "beginner", count := 5 }]
        | none => acc) fromWeak
  if withGoals.isEmpty then
    [{ id := "flashcard_general", title := "Computer Science Fundamentals"
       description := "Review core CS concepts to build a strong foundation"
       difficulty := "beginner", count := 10 }]
  else withGoals

/-- Embedding of `UserContext._get_game_recommendations`: topic-triggered
games, a memory-match game for visual learners with fewer than 2 games,
and a general fallback game. -/
def get_game_recommendations (ctx : Context) : List Game :=
  let learning_style := ctx.preferences.learningStyle
  let weak_topics := ctx.preferences.weakTopics
  let session_topics := ctx.sessionData.topics
  let topics := weak_topics ++ session_topics.filter (fun t => t ∉ weak_topics)
  let g1 := if "os" ∈ topics ∨ "operating systems" ∈ topics then
      [{ id := "game_os_visualization", title := "OS Visualization Game"
         description := "Interactive visualization of operating system concepts"
         difficulty := "medium", type := "visualization" }] else []
  let g2 := if "recursion" ∈ topics ∨ "algorithms" ∈ topics then
      [{ id := "game_recursion_puzzle", title := "Recursion Puzzle"
         description := "Solve recursive problems visually"
         difficulty := "hard", type := "puzzle" }] else []
  let g3 := if "dbms" ∈ topics ∨ "sql" ∈ topics ∨ "database" ∈ topics then
      [{ id := "game_dbms_challenge", title := "Database Query Challenge"
         description := "Practice SQL queries in a game environment"
         difficulty := "medium", type := "quiz" }] else []
  let games0 := g1 ++ g2 ++ g3
  let games1 := if learning_style = "visual" ∧ games0.length < 2 then
      games0 ++ [{ id := "game_memory_match", title := "CS Concept Memory Match"
                   description := "Match related computer science concepts"
                   difficulty := "easy", type := "memory" }] else games0
  if games1.isEmpty then
    [{ id := "game_coding_challenge", title := "Quick Coding Challenge"
       description := "Test your coding skills with a quick challenge"
       difficulty := "medium", type := "challenge" }]
  else games1

/-- Embedding of `UserContext._get_resource_recommendations`: tutorials
for up to 2 topics, a video series for the first topic, and a general
fallback resource. -/
def get_resource_recommendations (ctx : Context) : List Resource :=
  let skill_level := ctx.skillLevel.getD "beginner"
  let weak_topics := ctx.preferences.weakTopics
  let session_topics := ctx.sessionData.topics
  let topics := weak_topics ++ session_topics.filter (fun t => t ∉ weak_topics)
  let fromTopics := (topics.take 2).foldl
    (fun acc topic => acc ++
      [{ id := "resource_" ++ toString (acc.length + 1)
         title := pyTitle topic ++ " Tutorial"
         description := "Comprehensive " ++ skill_level ++ " guide to " ++ topic
         type := "tutorial", format := "interactive" }]) []
  let withVideo :=
    match topics with
    | [] => fromTopics
    | t0 :: _ => fromTopics ++
      [{ id := "resource_" ++ toString (fromTopics.length + 1)
         title := pyTitle t0 ++ " Video Series"
         description := "Visual explanation of key " ++ t0 ++ " concepts"
         type := "video", format := "playlist" }]
  if withVideo.isEmpty then
    [{ id := "resource_general", title := "Computer Science Fundamentals"
       description := "Core CS concepts explained clearly"
       type := "guide", format := "interactive" }]
  else withVideo

/-- The `general_steps` padding list of `_get_next_steps`. -/
def general_steps : List String :=
  ["Take a practice quiz to identify knowledge gaps",
   "Complete a learning assessment to update your profile",
   "Try a visualization exercise for a difficult concept",
   "Attempt the interactive coding exercises"]

/-- One pass of the padding `for` loop of `_get_next_steps`: append the
first general step not yet present. -/
def padStep (steps : List String) : List String :=
  match general_steps.find? (fun s => !(steps.contains s)) with
  | some s => steps ++ [s]
  | none => steps

/-- The `while len(next_steps) < 3` loop of `_get_next_steps`, run with
fuel (the Python loop would not terminate in the unreachable state where
every general step is already present and fewer than 3 steps exist). -/
def padLoop : Nat → List String → List String
  | 0, steps => steps
  | n + 1, steps =>
    if steps.length < 3 then padLoop n (padStep steps) else steps

/-- Embedding of `UserContext._get_next_steps`: weak-topic steps, a
goal-assessment step, a skill-level step, padded with unseen general
steps and truncated to exactly 3. -/
def get_next_steps (eg : String → Option String) (ctx : Context) :
    List String :=
  let weak_topics := ctx.preferences.weakTopics
  let goals := ctx.preferences.goals
  let skill_level := ctx.skillLevel.getD "beginner"
  let s1 :=
    match weak_topics with
    | [] => []
    | w0 :: rest =>
      ["Complete the " ++ pyTitle w0 ++ " practice exercises"]
        ++ (match rest with
            | [] => []
            | w1 :: _ => ["Review the " ++ pyTitle w1 ++ " flashcards"])
  let s2 :=
    match goals with
    | [] => []
    | g0 :: _ =>
      match eg g0 with
      | some t => ["Take the " ++ pyTitle t ++ " assessment quiz"]
      | none => []
  let s3 :=
    [if skill_level = "beginner" then
      "Complete the CS Fundamentals interactive tutorial"
     else if skill_level = "intermediate" then
      "Try the programming challenge to test your skills"
     else "Tackle the advanced algorithm optimization exercises"]
  (padLoop 3 (s1 ++ s2 ++ s3)).take 3

/-- The payload of `get_personalized_recommendations`. -/
structure Recommendations where
  flashcards : List Flashcard
  games : List Game
  resources : List Resource
  nextSteps : List String
deriving Repr, DecidableEq

/-- Embedding of `UserContext.get_personalized_recommendations`. -/
def get_personalized_recommendations (eg : String → Option String)
    (ctx : Context) : Recommendations :=
  { flashcards := get_flashcard_recommendations eg ctx
    games := get_game_recommendations ctx
    resources := get_resource_recommendations ctx
    nextSteps := get_next_steps eg ctx }

end UserCtx

namespace AdvAgent

/-- One step of the tracker preserves the [0,1] range of all proficiencies,
provided the recorded success rate (when present) lies in [0,1]. -/
theorem track_preserves_range (now : String) (p : AdvProfile) (d : Interaction)
    (hp : ProfInRange p)
    (hd : ∀ s, d.success_rate = some s → 0 ≤ s ∧ s ≤ 1) :
    ProfInRange (track_learning_progress now p d) := by
  intro t a h
  simp only [track_learning_progress] at h
  by_cases htop : d.topic ≠ ""
  · rw [if_pos htop] at h
    by_cases ht : t = d.topic
    · rw [if_pos ht] at h
      have hs : 0 ≤ d.success_rate.getD (1/2) ∧ d.success_rate.getD (1/2) ≤ 1 := by
        cases hsr : d.success_rate with
        | none => norm_num
        | some s => simpa using hd s hsr
      have hbase : 0 ≤ ((p.knowledge_areas d.topic).getD
          { proficiency := 1/10, interactions := 0, last_practiced := now }).proficiency ∧
          ((p.knowledge_areas d.topic).getD
          { proficiency := 1/10, interactions := 0, last_practiced := now }).proficiency ≤ 1 := by
        cases hka : p.knowledge_areas d.topic with
        | none => norm_num
        | some a0 => simpa using hp d.topic a0 hka
      injection h with h2
      subst h2
      constructor
      · simp only [le_min_iff]
        constructor
        · norm_num
        · have := hs.1
          have := hbase.1
          unfold learning_rate
          positivity
      · exact min_le_left _ _
    · rw [if_neg ht] at h
      exact hp t a h
  · rw [if_neg htop] at h
    exact hp t a h

/-- Claim C1: starting from any profile whose proficiencies lie in [0,1],
any sequence of `track_learning_progress` calls whose success rates lie in
[0,1] keeps every knowledge area's proficiency in [0,1] after every step
(every prefix of the sequence). -/
theorem proficiency_stays_in_unit_range (p0 : AdvProfile) (h0 : ProfInRange p0)
    (ds : List (String × Interaction)) (hds : RatesInRange ds) (k : Nat) :
    ProfInRange (runTrack p0 (ds.take k)) := by
  have main : ∀ (l : List (String × Interaction)) (p : AdvProfile),
      ProfInRange p → RatesInRange l → ProfInRange (runTrack p l) := by
    intro l
    induction l with
    | nil => intro p hp _; exact hp
    | cons d rest ih =>
      intro p hp hl
      have hstep : ProfInRange (track_learning_progress d.1 p d.2) :=
        track_preserves_range d.1 p d.2 hp
          (fun s hs => hl d (List.mem_cons_self d rest) s hs)
      have hrest : RatesInRange rest := fun nd hnd s hs =>
        hl nd (List.mem_cons_of_mem d hnd) s hs
      simpa [runTrack] using ih (track_learning_progress d.1 p d.2) hstep hrest
  exact main (ds.take k) p0 h0
    (fun nd hnd s hs => hds nd (List.take_subset k ds hnd) s hs)

/-- Witness for `proficiency_stays_in_unit_range` at a concrete run:
one interaction on "recursion" with success rate 1/2 from the default
profile, whose resulting proficiency 3/20 lies in [0,1]. -/
theorem proficiency_stays_in_unit_range_witness :
    (0:ℚ) ≤ (3/20 : ℚ) ∧ (3/20 : ℚ) ≤ 1 := by
  have h0 : ProfInRange advDefault := by
    intro t a h
    simp [advDefault] at h
  have hds : RatesInRange [("t0", ⟨"recursion", some (1/2)⟩)] := by
    intro nd hnd s hs
    simp only [List.mem_singleton] at hnd
    subst hnd
    simp only [Option.some.injEq] at hs
    subst hs
    norm_num
  have h := proficiency_stays_in_unit_range advDefault h0
    [("t0", ⟨"recursion", some (1/2)⟩)] hds 1
  have harea : (runTrack advDefault
        [("t0", ⟨"recursion", some (1/2)⟩)]).knowledge_areas "recursion"
      = some { proficiency := 3/20, interactions := 1, last_practiced := "t0" } := by
    simp only [runTrack, List.foldl_cons, List.foldl_nil,
      track_learning_progress, advDefault]
    norm_num [learning_rate]
    rw [if_neg (show ¬("recursion" = "") by decide)]
    simp
  exact h "recursion"
    { proficiency := 3/20, interactions := 1, last_practiced := "t0" } harea

/-- Claim C2: a brand-new user's single interaction on the unseen topic
"recursion" with success rate 1/2 yields proficiency 3/20 = 0.15 and
interaction count 1; the area did not exist before and 0.15 is the base
proficiency 0.1 plus the additive update (success rate times the
learning rate). -/
theorem new_user_first_interaction :
    (track_learning_progress "t0" advDefault
        ⟨"recursion", some (1/2)⟩).knowledge_areas "recursion"
      = some { proficiency := 3/20, interactions := 1, last_practiced := "t0" }
    ∧ advDefault.knowledge_areas "recursion" = none
    ∧ (3/20 : ℚ) = 1/10 + (1/2) * learning_rate := by
  refine ⟨?_, rfl, by norm_num [learning_rate]⟩
  simp only [track_learning_progress, advDefault]
  norm_num [learning_rate]
  rw [if_neg (show ¬("recursion" = "") by decide)]
  simp

end AdvAgent

namespace AdvAgent

/-- Counterexample to claim C7: after three recorded interactions with
success rate 1, the code leaves `learning_velocity` at its neutral default
1/2 although three samples exist and their window mean is 1, so the
velocity is not updated once `min(3, 10) = 3` samples exist. -/
theorem velocity_not_updated_at_three_samples :
    3 ≤ (runTrack advDefault [("t1", ⟨"r", some 1⟩), ("t2", ⟨"r", some 1⟩),
        ("t3", ⟨"r", some 1⟩)]).learning_history.length
    ∧ (runTrack advDefault [("t1", ⟨"r", some 1⟩), ("t2", ⟨"r", some 1⟩),
        ("t3", ⟨"r", some 1⟩)]).learning_velocity
      ≠ windowMean (runTrack advDefault [("t1", ⟨"r", some 1⟩),
        ("t2", ⟨"r", some 1⟩), ("t3", ⟨"r", some 1⟩)]).learning_history := by
  constructor
  · simp [runTrack, track_learning_progress]
  · simp only [runTrack, List.foldl_cons, List.foldl_nil,
      track_learning_progress, windowMean, advDefault]
    norm_num

/-- Claim C7 as amended: starting from the default profile, the learning
velocity equals the mean success rate over the last 10 recorded
interactions as soon as at least 5 samples exist, and stays at the neutral
default 1/2 while fewer than 5 samples exist (the source threshold is
`len(recent_interactions) >= 5`, not 3). -/
theorem velocity_is_window_mean (ds : List (String × Interaction)) :
    (5 ≤ (runTrack advDefault ds).learning_history.length →
      (runTrack advDefault ds).learning_velocity
        = windowMean (runTrack advDefault ds).learning_history)
    ∧ ((runTrack advDefault ds).learning_history.length < 5 →
      (runTrack advDefault ds).learning_velocity = 1/2) := by
  induction ds using List.reverseRecOn with
  | nil => exact ⟨fun h => by simp [runTrack, advDefault] at h, fun _ => rfl⟩
  | append_singleton l d ih =>
    have hrun : runTrack advDefault (l ++ [d])
        = track_learning_progress d.1 (runTrack advDefault l) d.2 := by
      simp [runTrack, List.foldl_append]
    rw [hrun]
    set q := runTrack advDefault l with hq
    have hlen : (track_learning_progress d.1 q d.2).learning_history
        = q.learning_history ++ [d.2] := rfl
    have hreclen : ((q.learning_history ++ [d.2]).drop
        ((q.learning_history ++ [d.2]).length - 10)).length
        = (q.learning_history ++ [d.2]).length
          - ((q.learning_history ++ [d.2]).length - 10) :=
      List.length_drop _ _
    by_cases h5 : 5 ≤ (q.learning_history ++ [d.2]).length
    · have hc : 5 ≤ ((q.learning_history ++ [d.2]).drop
          ((q.learning_history ++ [d.2]).length - 10)).length := by
        rw [hreclen]; omega
      constructor
      · intro _
        show (track_learning_progress d.1 q d.2).learning_velocity = _
        rw [hlen]
        simp only [track_learning_progress, if_pos hc, windowMean]
      · intro hlt
        rw [hlen] at hlt
        omega
    · have hc : ¬ 5 ≤ ((q.learning_history ++ [d.2]).drop
          ((q.learning_history ++ [d.2]).length - 10)).length := by
        rw [hreclen]; omega
      constructor
      · intro hge
        rw [hlen] at hge
        exact absurd hge h5
      · intro _
        have hv : (track_learning_progress d.1 q d.2).learning_velocity
            = q.learning_velocity := by
          simp only [track_learning_progress, if_neg hc]
        rw [hv]
        apply ih.2
        have := List.length_append q.learning_history [d.2]
        simp only [List.length_singleton] at this
        omega

/-- Witness for `velocity_is_window_mean`: after five interactions with
success rate 1 the velocity is the window mean of the recorded history. -/
theorem velocity_is_window_mean_witness :
    (runTrack advDefault [("t1", ⟨"r", some 1⟩), ("t2", ⟨"r", some 1⟩),
        ("t3", ⟨"r", some 1⟩), ("t4", ⟨"r", some 1⟩),
        ("t5", ⟨"r", some 1⟩)]).learning_velocity
      = windowMean (runTrack advDefault [("t1", ⟨"r", some 1⟩),
        ("t2", ⟨"r", some 1⟩), ("t3", ⟨"r", some 1⟩), ("t4", ⟨"r", some 1⟩),
        ("t5", ⟨"r", some 1⟩)]).learning_history :=
  (velocity_is_window_mean [("t1", ⟨"r", some 1⟩), ("t2", ⟨"r", some 1⟩),
    ("t3", ⟨"r", some 1⟩), ("t4", ⟨"r", some 1⟩), ("t5", ⟨"r", some 1⟩)]).1
    (by simp [runTrack, track_learning_progress])

end AdvAgent

namespace AgentV1

/-- Counterexample to claim C3: with the same profile state (21
interactions, current level "beginner") the skill update yields
"intermediate" or "beginner" depending on the level reported by the
collaborator, so the update is neither a function of the profile state
alone nor gated by any average-recent-success condition. -/
theorem skill_update_depends_on_reported_level :
    updateSkillLevel 21 "beginner" (some "intermediate") = "intermediate"
    ∧ updateSkillLevel 21 "beginner" none = "beginner"
    ∧ ("intermediate" : String) ≠ "beginner" := by
  decide

/-- Claim C3 as amended: the global skill level becomes "advanced" only
when the post-increment interaction count exceeds 50 and the collaborator
reported "advanced"; it becomes "intermediate" only when the count exceeds
20, the collaborator reported "intermediate" and the current level is
"beginner"; otherwise it is unchanged; and the update is idempotent in
(count, level, reported level). No average-recent-success condition
exists in the code. -/
theorem skill_level_thresholds (count : Nat) (skill : String)
    (lvl : Option String) :
    (updateSkillLevel count skill lvl = "advanced" ∧ skill ≠ "advanced" →
      50 < count ∧ lvl = some "advanced")
    ∧ (updateSkillLevel count skill lvl = "intermediate" ∧ skill ≠ "intermediate" →
      20 < count ∧ lvl = some "intermediate" ∧ skill = "beginner")
    ∧ updateSkillLevel count (updateSkillLevel count skill lvl) lvl
        = updateSkillLevel count skill lvl := by
  unfold updateSkillLevel
  split_ifs <;> simp_all
  omega

/-- Witness for `skill_level_thresholds`: at count 21 with a "beginner"
profile and reported level "intermediate" the promotion to "intermediate"
implies the claimed conditions. -/
theorem skill_level_thresholds_witness :
    20 < 21 ∧ (some "intermediate" = some "intermediate")
      ∧ ("beginner" : String) = "beginner" :=
  (skill_level_thresholds 21 "beginner" (some "intermediate")).2.1 (by decide)

/-- Evidence for claim C4 (a bug in the code): `_is_greeting_or_casual`
matches "hi" as a substring of "history", and the fast path of
`process_query` therefore classifies the one-word query "history" as a
greeting, contradicting the specified prefix/whole-string matching. -/
theorem history_classified_as_greeting :
    is_greeting_or_casual "history" = true
    ∧ (process_query "t0" (get_default_profile "u") "history"
        .raised).2.query_type = some "greeting" := by
  decide

/-- Counterexample to claim C5: for an "advanced" profile and a response
containing no JSON object (unparseable), the outer handler returns the
hardcoded level "beginner" instead of the profile's skill level. -/
theorem no_json_fallback_ignores_profile_level :
    ((process_query "t0"
        { get_default_profile "u" with skill_level := "advanced" }
        "explain monads in haskell" (.ok .noJson)).2.level = some "beginner")
    ∧ ({ get_default_profile "u" with skill_level := "advanced" }
        : Profile).skill_level = "advanced"
    ∧ ("beginner" : String) ≠ "advanced" := by
  decide

/-- Claim C5 as amended: `process_query` is total (never raises, modelled
by it being a function into profile-response pairs); for a query on the
LLM path (neither greeting-matched nor system-matched), a parsed response
is returned unchanged; a JSON decode error yields an educational result
with the profile's level, the profile's learning styles (when non-empty)
and the original query as tailored query; a raised chain exception or a
response without a JSON object yields an educational result with the
hardcoded level "beginner", default styles and the original query. -/
theorem process_query_fallback_shape (now : String) (p : Profile) (q : String)
    (hg : is_greeting_or_casual q = false)
    (hn : is_non_educational q = false) :
    (∀ d, (process_query now p q (.ok (.parsed d))).2 = d)
    ∧ ((process_query now p q (.ok .decodeError)).2.query_type = some "educational"
       ∧ (process_query now p q (.ok .decodeError)).2.level = some p.skill_level
       ∧ (p.preferred_learning_styles ≠ [] →
           (process_query now p q (.ok .decodeError)).2.learning_style
             = some p.preferred_learning_styles)
       ∧ (process_query now p q (.ok .decodeError)).2.tailored_query = some q)
    ∧ ((process_query now p q (.ok .noJson)).2.query_type = some "educational"
       ∧ (process_query now p q (.ok .noJson)).2.level = some "beginner"
       ∧ (process_query now p q (.ok .noJson)).2.tailored_query = some q)
    ∧ ((process_query now p q .raised).2.query_type = some "educational"
       ∧ (process_query now p q .raised).2.level = some "beginner"
       ∧ (process_query now p q .raised).2.tailored_query = some q) := by
  refine ⟨fun d => ?_, ⟨?_, ?_, fun hs => ?_, ?_⟩, ⟨?_, ?_, ?_⟩, ⟨?_, ?_, ?_⟩⟩
  all_goals
    simp [process_query, hg, hn, json_decode_fallback, outer_except_fallback,
      json_fallback_educational, except_fallback_educational]
  all_goals simp_all

/-- Witness for `process_query_fallback_shape`: on a decode error for an
"advanced" profile, the fallback carries the profile's level and styles. -/
theorem process_query_fallback_shape_witness :
    ((process_query "t0"
        { get_default_profile "u" with skill_level := "advanced" }
        "explain monads in haskell" (.ok .decodeError)).2.level = some "advanced")
    ∧ ((process_query "t0"
        { get_default_profile "u" with skill_level := "advanced" }
        "explain monads in haskell" (.ok .decodeError)).2.learning_style
          = some ["visual", "textual"]) := by
  have h := process_query_fallback_shape "t0"
    { get_default_profile "u" with skill_level := "advanced" }
    "explain monads in haskell" (by decide) (by decide)
  exact ⟨h.2.1.2.1, h.2.1.2.2.1 (by decide)⟩

end AgentV1

namespace AgentV2

/-- Behaviour of the cap-to-last-100 truncation used for
`session_history` and `feedback`: the result never exceeds 100 entries,
appends below the cap are kept whole, and at the cap the oldest entry is
evicted while the new one is appended. -/
lemma cap_spec {α : Type} (h : List α) (e : α) (hle : h.length ≤ 100) :
    ((if 100 < (h ++ [e]).length then (h ++ [e]).drop ((h ++ [e]).length - 100)
      else h ++ [e]).length ≤ 100)
    ∧ (h.length < 100 →
        (if 100 < (h ++ [e]).length then (h ++ [e]).drop ((h ++ [e]).length - 100)
         else h ++ [e]) = h ++ [e])
    ∧ (h.length = 100 →
        (if 100 < (h ++ [e]).length then (h ++ [e]).drop ((h ++ [e]).length - 100)
         else h ++ [e]) = h.tail ++ [e]) := by
  have hlen : (h ++ [e]).length = h.length + 1 := by simp
  by_cases hc : 100 < (h ++ [e]).length
  · have h100 : h.length = 100 := by omega
    rw [if_pos hc]
    refine ⟨?_, fun hlt => by omega, fun _ => ?_⟩
    · rw [List.length_drop]; omega
    · have hone : (h ++ [e]).length - 100 = 1 := by omega
      rw [hone, List.drop_append_of_le_length (by omega), List.drop_one]
  · rw [if_neg hc]
    exact ⟨by omega, fun _ => rfl, fun hq => by omega⟩

/-- Claim C6 as amended, positive part (personalization/agent.py): when
the logs start within their caps, a processed interaction and a recorded
feedback keep `session_history` and `feedback` at no more than 100
entries; below the cap the new entry is appended whole, and at the cap
the oldest entry is evicted first while the newest is retained. -/
theorem history_and_feedback_caps (now : String) (p : Profile) (q : String)
    (r : LLMResponse) (wh : Bool) (fb : Option String)
    (hh : p.session_history.length ≤ 100)
    (hf : p.feedback.length ≤ 100) :
    ((update_profile_from_interaction now p q r).session_history.length ≤ 100
     ∧ (p.session_history.length < 100 →
        (update_profile_from_interaction now p q r).session_history
          = p.session_history ++ [sessionEntry now q r])
     ∧ (p.session_history.length = 100 →
        (update_profile_from_interaction now p q r).session_history
          = p.session_history.tail ++ [sessionEntry now q r]))
    ∧ ((provide_feedback now p q wh fb).feedback.length ≤ 100
     ∧ (p.feedback.length < 100 →
        (provide_feedback now p q wh fb).feedback
          = p.feedback ++ [feedbackEntry now q wh fb])
     ∧ (p.feedback.length = 100 →
        (provide_feedback now p q wh fb).feedback
          = p.feedback.tail ++ [feedbackEntry now q wh fb])) := by
  constructor
  · have hc := cap_spec p.session_history (sessionEntry now q r) hh
    refine ⟨?_, fun hlt => ?_, fun heq => ?_⟩
    · simpa [update_profile_from_interaction] using hc.1
    · simpa [update_profile_from_interaction] using hc.2.1 hlt
    · simpa [update_profile_from_interaction] using hc.2.2 heq
  · have hc := cap_spec p.feedback (feedbackEntry now q wh fb) hf
    cases wh
    · refine ⟨?_, fun hlt => ?_, fun heq => ?_⟩
      · simpa [provide_feedback] using hc.1
      · simpa [provide_feedback] using hc.2.1 hlt
      · simpa [provide_feedback] using hc.2.2 heq
    · refine ⟨?_, fun hlt => ?_, fun heq => ?_⟩
      · simpa [provide_feedback] using hc.1
      · simpa [provide_feedback] using hc.2.1 hlt
      · simpa [provide_feedback] using hc.2.2 heq

/-- Witness for `history_and_feedback_caps` on the fresh profile. -/
theorem history_and_feedback_caps_witness :
    (update_profile_from_interaction "t1" new_profile "what is python"
        ⟨some "educational", none, none, none, none, none⟩).session_history.length
      ≤ 100
    ∧ (provide_feedback "t1" new_profile "what is python" true
        none).feedback.length ≤ 100 := by
  have h := history_and_feedback_caps "t1" new_profile "what is python"
    ⟨some "educational", none, none, none, none, none⟩ true none
    (by decide) (by decide)
  exact ⟨h.1.1, h.2.1⟩

/-- Counterexample to claim C6 as stated about the whole program: the
legacy agent (personalization_agent.py) appends to `session_history` and
to `feedback` without any cap, so both logs reach 101 entries. -/
theorem legacy_logs_uncapped :
    100 < (AgentV1.update_profile_from_interaction "t1"
      { AgentV1.get_default_profile "u" with
          session_history := List.replicate 100
            ⟨"t0", "q0", "educational", none, none, none⟩ }
      "explain recursion" AgentV1.LLMResponse.noKeys).session_history.length
    ∧ 100 < ((AgentV1.provide_feedback "t1"
      { AgentV1.get_default_profile "u" with
          feedback := some (List.replicate 100 ⟨"t0", "q0", true, none⟩) }
      "q1" true none).feedback.getD []).length := by
  constructor
  · simp [AgentV1.update_profile_from_interaction]
  · simp [AgentV1.provide_feedback]

end AgentV2

namespace Migration

/-- Claim C9 as amended, positive part: the top-level default-key merge of
`get_advanced_user_profile` is purely additive - every key present in the
stored profile keeps its stored value, and a key whose value changed was
absent in the stored profile and received a default value listed in the
schema default. -/
theorem merge_is_additive {V : Type} (defaults : List (String × V))
    (stored : String → Option V) (k : String) :
    (∀ v, stored k = some v → merge_missing_keys defaults stored k = some v)
    ∧ (merge_missing_keys defaults stored k ≠ stored k →
        stored k = none ∧ ∃ v, (k, v) ∈ defaults
          ∧ merge_missing_keys defaults stored k = some v) := by
  induction defaults generalizing stored with
  | nil => exact ⟨fun v h => h, fun hne => absurd rfl hne⟩
  | cons kv rest ih =>
    have hcons : merge_missing_keys (kv :: rest) stored
        = merge_missing_keys rest
          (match stored kv.1 with
           | none => fun x => if x = kv.1 then some kv.2 else stored x
           | some _ => stored) := rfl
    rw [hcons]
    set acc1 : String → Option V :=
      (match stored kv.1 with
       | none => fun x => if x = kv.1 then some kv.2 else stored x
       | some _ => stored) with hacc
    constructor
    · intro v hv
      have hstep : acc1 k = some v := by
        rw [hacc]
        cases hkv : stored kv.1 with
        | none =>
          simp only []
          by_cases hk : k = kv.1
          · rw [hk] at hv
            rw [hkv] at hv
            exact absurd hv (by simp)
          · rw [if_neg hk]
            exact hv
        | some w => exact hv
      exact (ih acc1).1 v hstep
    · intro hne
      by_cases heq : merge_missing_keys rest acc1 k = acc1 k
      · have hacc_ne : acc1 k ≠ stored k := by
          intro hsame
          exact hne (heq.trans hsame)
        rw [hacc] at hacc_ne heq
        cases hkv : stored kv.1 with
        | none =>
          rw [hkv] at hacc_ne heq
          simp only [] at hacc_ne heq
          by_cases hk : k = kv.1
          · refine ⟨by rw [hk]; exact hkv, kv.2, ?_, ?_⟩
            · subst hk
              simp
            · simp only [hacc, hkv]
              rw [heq, if_pos hk]
          · rw [if_neg hk] at hacc_ne
            exact absurd rfl hacc_ne
        | some w =>
          rw [hkv] at hacc_ne
          exact absurd rfl hacc_ne
      · obtain ⟨hnone, v, hv_mem, hv_eq⟩ := (ih acc1).2 heq
        have hstored : stored k = none := by
          rw [hacc] at hnone
          cases hkv : stored kv.1 with
          | none =>
            rw [hkv] at hnone
            simp only [] at hnone
            by_cases hk : k = kv.1
            · rw [if_pos hk] at hnone
              exact absurd hnone (by simp)
            · rw [if_neg hk] at hnone
              exact hnone
          | some w =>
            rw [hkv] at hnone
            exact hnone
        exact ⟨hstored, v, List.mem_cons_of_mem kv hv_mem, hv_eq⟩

/-- Witness for `merge_is_additive`: a stored pair survives the merge. -/
theorem merge_is_additive_witness :
    merge_missing_keys [("a", (1:Nat)), ("b", 2)]
      (fun k => if k = "b" then some 7 else none) "b" = some 7 :=
  (merge_is_additive [("a", (1:Nat)), ("b", 2)]
    (fun k => if k = "b" then some 7 else none) "b").1 7 rfl

/-- Counterexample to claim C9: `_migrate_profile_structure` is not
additive - a stored profile whose `learning_style` is `["textual"]` comes
out of migration with the schema default `["visual"]`, because the
function copies only a whitelist of five keys and resets everything else. -/
theorem migrate_overwrites_stored_key :
    ((fun k => if k = "learning_style"
        then some (JVal.list [JVal.str "textual"]) else none) : String → Option JVal)
      "learning_style" = some (JVal.list [JVal.str "textual"])
    ∧ migrate_profile_structure "t1"
        (fun k => if k = "learning_style"
          then some (JVal.list [JVal.str "textual"]) else none) "learning_style"
        = some (JVal.list [JVal.str "visual"])
    ∧ JVal.list [JVal.str "visual"] ≠ JVal.list [JVal.str "textual"] := by
  refine ⟨rfl, rfl, by simp⟩

end Migration

namespace UserStore

/-- Claim C10: every character of the sanitized user id is alphanumeric
(in the sense of the `isalnum` predicate) or one of `.`, `_`, `-`, `@`;
consequently the fallback file name `user_<sanitized>.json` contains no
path separator (`/` or `\x5c`), for every user id. -/
theorem sanitized_file_name_is_safe (alnum : Char → Bool)
    (h1 : alnum '/' = false) (h2 : alnum '\\' = false) (user_id : String) :
    (∀ c ∈ (sanitize_user_id alnum user_id).data,
        alnum c = true ∨ c ∈ allowed_punct)
    ∧ '/' ∉ (fallback_file_name alnum user_id).data
    ∧ '\\' ∉ (fallback_file_name alnum user_id).data := by
  have hmain : ∀ c ∈ (sanitize_user_id alnum user_id).data,
      alnum c = true ∨ c ∈ allowed_punct := by
    intro c hc
    simp only [sanitize_user_id, List.mem_map] at hc
    obtain ⟨a, _, hmap⟩ := hc
    by_cases hcond : (alnum a || a ∈ allowed_punct) = true
    · rw [if_pos hcond] at hmap
      rw [← hmap]
      simpa using hcond
    · rw [if_neg hcond] at hmap
      rw [← hmap]
      right
      simp [allowed_punct]
  have hdata : (fallback_file_name alnum user_id).data
      = "user_".data ++ (sanitize_user_id alnum user_id).data ++ ".json".data := by
    simp [fallback_file_name]
  refine ⟨hmain, ?_, ?_⟩
  · rw [hdata]
    intro hmem
    rcases List.mem_append.mp hmem with hmem | hmem
    · rcases List.mem_append.mp hmem with hmem | hmem
      · exact absurd hmem (by decide)
      · rcases hmain '/' hmem with ha | ha
        · rw [h1] at ha
          exact absurd ha (by decide)
        · exact absurd ha (by decide)
    · exact absurd hmem (by decide)
  · rw [hdata]
    intro hmem
    rcases List.mem_append.mp hmem with hmem | hmem
    · rcases List.mem_append.mp hmem with hmem | hmem
      · exact absurd hmem (by decide)
      · rcases hmain '\\' hmem with ha | ha
        · rw [h2] at ha
          exact absurd ha (by decide)
        · exact absurd ha (by decide)
    · exact absurd hmem (by decide)

/-- Witness for `sanitized_file_name_is_safe` with Python's ASCII
alphanumeric predicate and a traversal-shaped user id. -/
theorem sanitized_file_name_is_safe_witness :
    '/' ∉ (fallback_file_name Char.isAlphanum "../..\\etc/passwd").data
    ∧ '\\' ∉ (fallback_file_name Char.isAlphanum "../..\\etc/passwd").data :=
  ⟨(sanitized_file_name_is_safe Char.isAlphanum (by decide) (by decide)
      "../..\\etc/passwd").2.1,
   (sanitized_file_name_is_safe Char.isAlphanum (by decide) (by decide)
      "../..\\etc/passwd").2.2⟩

end UserStore

namespace UserCtx

/-- A string of the form `"Take the " ++ x ++ " assessment quiz"` differs
from any string whose first 9 characters are not `"Take the "`. -/
lemma take_the_ne (x s : String) (hs : s.data.take 9 ≠ ("Take the ").data) :
    ("Take the " ++ x ++ " assessment quiz") ≠ s := by
  intro he
  apply hs
  rw [← he]
  have hdata : ("Take the " ++ x ++ " assessment quiz").data
      = ("Take the ").data ++ (x.data ++ (" assessment quiz").data) := by
    rw [String.data_append, String.data_append, List.append_assoc]
  rw [hdata]
  have h9 : ("Take the ").data.length = 9 := rfl
  rw [← h9]
  exact List.take_left _ _

/-- Claim C8: on the brand-new default context (empty weak topics, the
default goal, no session topics), the recommendation generator returns
non-empty flashcards, games and resources, and exactly 3 pairwise distinct
next steps - for every behaviour of the goal-topic extractor (with or
without a Gemini model). -/
theorem default_recommendations_complete
    (gemini : Option (String → Option String)) (user_id now : String) :
    (get_personalized_recommendations (extract_topic_from_goal gemini)
        (create_default_context user_id now)).flashcards ≠ []
    ∧ (get_personalized_recommendations (extract_topic_from_goal gemini)
        (create_default_context user_id now)).games ≠ []
    ∧ (get_personalized_recommendations (extract_topic_from_goal gemini)
        (create_default_context user_id now)).resources ≠ []
    ∧ (get_personalized_recommendations (extract_topic_from_goal gemini)
        (create_default_context user_id now)).nextSteps.length = 3
    ∧ (get_personalized_recommendations (extract_topic_from_goal gemini)
        (create_default_context user_id now)).nextSteps.Nodup := by
  simp only [get_personalized_recommendations]
  refine ⟨?_, ?_, ?_, ?_⟩
  · rcases hgoal : extract_topic_from_goal gemini "Master coding concepts"
      with _ | t
    · simp [get_flashcard_recommendations, create_default_context, hgoal]
    · simp [get_flashcard_recommendations, create_default_context, hgoal]
  · simp [get_game_recommendations, create_default_context]
  · simp [get_resource_recommendations, create_default_context]
  · rcases hgoal : extract_topic_from_goal gemini "Master coding concepts"
      with _ | t
    · constructor
      · simp [get_next_steps, create_default_context, hgoal, padLoop, padStep,
          general_steps, List.find?]
      · simp [get_next_steps, create_default_context, hgoal, padLoop, padStep,
          general_steps, List.find?]
    · have hG1 : ("Take a practice quiz to identify knowledge gaps" : String)
          ≠ "Take the " ++ pyTitle t ++ " assessment quiz" :=
        (take_the_ne (pyTitle t) _ (by decide)).symm
      have hGB : ("Take the " ++ pyTitle t ++ " assessment quiz")
          ≠ "Complete the CS Fundamentals interactive tutorial" :=
        take_the_ne (pyTitle t) _ (by decide)
      have hsteps : get_next_steps (extract_topic_from_goal gemini)
          (create_default_context user_id now)
          = ["Take the " ++ pyTitle t ++ " assessment quiz",
             "Complete the CS Fundamentals interactive tutorial",
             "Take a practice quiz to identify knowledge gaps"] := by
        have e0 : get_next_steps (extract_topic_from_goal gemini)
            (create_default_context user_id now)
            = (padLoop 3 ["Take the " ++ pyTitle t ++ " assessment quiz",
               "Complete the CS Fundamentals interactive tutorial"]).take 3 := by
          simp [get_next_steps, create_default_context, hgoal]
        have e1 : padStep ["Take the " ++ pyTitle t ++ " assessment quiz",
            "Complete the CS Fundamentals interactive tutorial"]
            = ["Take the " ++ pyTitle t ++ " assessment quiz",
               "Complete the CS Fundamentals interactive tutorial",
               "Take a practice quiz to identify knowledge gaps"] := by
          simp [padStep, general_steps, List.find?, hG1]
        have e2 : padLoop 3 ["Take the " ++ pyTitle t ++ " assessment quiz",
            "Complete the CS Fundamentals interactive tutorial"]
            = ["Take the " ++ pyTitle t ++ " assessment quiz",
               "Complete the CS Fundamentals interactive tutorial",
               "Take a practice quiz to identify knowledge gaps"] := by
          rw [show padLoop 3 ["Take the " ++ pyTitle t ++ " assessment quiz",
              "Complete the CS Fundamentals interactive tutorial"]
              = padLoop 2 (padStep ["Take the " ++ pyTitle t ++ " assessment quiz",
                "Complete the CS Fundamentals interactive tutorial"]) from rfl, e1]
          rfl
        rw [e0, e2]
        rfl
      rw [hsteps]
      refine ⟨rfl, ?_⟩
      simp [List.nodup_cons, hGB, Ne.symm hG1]

end UserCtx
